import Mathlib

set_option maxHeartbeats 1000000

/-!
Shallow embedding of the school-directory API routes:
  src/app/api/schools/[id]/route.ts  (PUT, GET, DELETE handlers)
  src/lib/database.ts                (schema creation and its flags)
The relational store is modelled as in-memory lists of rows; each handler is a
pure function from a request and the store to a response and the new store.
-/

namespace SchoolApp

/-- JS whitespace class used by both parseInt's leading-trim and the regex
escape for whitespace: space, tab, LF, CR, vertical tab, form feed, NBSP.
(The full Unicode class is larger; all inputs considered here are ASCII.) -/
def isJsSpace (c : Char) : Bool :=
  c = ' ' || c = '\t' || c = '\n' || c = '\r' ||
  c = Char.ofNat 11 || c = Char.ofNat 12 || c = Char.ofNat 160

/-- Decimal digit value, as accepted by parseInt with radix 10. -/
def decVal (c : Char) : Option Nat :=
  if '0' ≤ c ∧ c ≤ '9' then some (c.toNat - '0'.toNat) else none

/-- Hexadecimal digit value, as accepted by parseInt after a 0x prefix. -/
def hexVal (c : Char) : Option Nat :=
  if '0' ≤ c ∧ c ≤ '9' then some (c.toNat - '0'.toNat)
  else if 'a' ≤ c ∧ c ≤ 'f' then some (c.toNat - 'a'.toNat + 10)
  else if 'A' ≤ c ∧ c ≤ 'F' then some (c.toNat - 'A'.toNat + 10)
  else none

/-- Reads the longest prefix of digit characters; none when no digit leads
(parseInt's NaN case), otherwise the value of that prefix. -/
def parseDigits (base : Nat) (dv : Char → Option Nat) (cs : List Char) : Option Nat :=
  let ds := cs.takeWhile (fun c => (dv c).isSome)
  if ds.isEmpty then none
  else some (ds.foldl (fun a c => a * base + (dv c).getD 0) 0)

/-- JS parseInt(s) with no radix argument: skip leading whitespace, optional
sign, hex when the body starts with 0x or 0X, else decimal; the longest digit
prefix is taken and trailing garbage ignored; none models the NaN result. -/
def jsParseInt (s : String) : Option Int :=
  let cs := s.data.dropWhile isJsSpace
  let sign : Int := match cs with | '-' :: _ => -1 | _ => 1
  let body : List Char := match cs with
    | '+' :: r => r
    | '-' :: r => r
    | _ => cs
  match body with
  | '0' :: c :: r =>
    if c = 'x' ∨ c = 'X' then (parseDigits 16 hexVal r).map (fun n => sign * (n : Int))
    else (parseDigits 10 decVal body).map (fun n => sign * (n : Int))
  | _ => (parseDigits 10 decVal body).map (fun n => sign * (n : Int))

/-- A character admitted by the bracket class of the route's email regex:
anything that is neither whitespace nor the at sign. -/
def okChar (c : Char) : Bool := !isJsSpace c && c ≠ '@'

/-- True when the list holds a dot followed by at least one more character. -/
def dotWithSuccessor : List Char → Bool
  | '.' :: _ :: _ => true
  | _ :: rest => dotWithSuccessor rest
  | [] => false

/-- True when the list holds a dot that is neither its first nor its last
character: the shape the regex tail of one-or-more, dot, one-or-more forces. -/
def hasInnerDot (cs : List Char) : Bool :=
  match cs with
  | [] => false
  | _ :: rest => dotWithSuccessor rest

/-- The route's email check (route.ts line 55): the anchored regex demands a
nonempty run without whitespace or at signs, one at sign, then a nonempty such
run containing a dot that is not at either end. -/
def emailRegexTest (s : String) : Bool :=
  let cs := s.data
  let l := cs.takeWhile (fun c => c ≠ '@')
  match cs.dropWhile (fun c => c ≠ '@') with
  | _ :: d => !l.isEmpty && l.all okChar && !d.isEmpty && d.all okChar && hasInnerDot d
  | [] => false

/-- JS truthiness of a formData.get result cast to string: null (absent field)
and the empty string are falsy, every other string truthy (route.ts line 48). -/
def truthy : Option String → Bool
  | none => false
  | some s => !s.isEmpty

/-- A row of the schools table (database.ts lines 49-63). Timestamps are out of
scope. created_by is nullable: the column declares ON DELETE SET NULL. -/
structure School where
  id : Nat
  name : String
  address : String
  city : String
  state : String
  contact : Int
  image : Option String
  email_id : String
  created_by : Option Nat
deriving Repr, DecidableEq

/-- A row of the app_users table, restricted to the columns the routes read. -/
structure User where
  id : Nat
  email : String
deriving Repr, DecidableEq

/-- The relational store as the handlers see it. -/
structure Db where
  users : List User
  schools : List School
deriving Repr, DecidableEq

/-- Modelled from the spec: verifyToken lives in src/lib/auth.ts, which is not
under src/. Per the spec it resolves a session token to a userId and fails when
the signature is wrong or the token expired; the routes only use that success
or failure, so it is abstracted as a resolver from tokens to optional userIds. -/
def TokenResolver : Type := String → Option Nat

/-- The request data the PUT handler reads: the auth-token cookie, the path id
segment, and the six formData fields (null when absent). -/
structure PutRequest where
  token : Option String
  id : String
  name : Option String
  address : Option String
  city : Option String
  state : Option String
  contact : Option String
  email_id : Option String
deriving Repr, DecidableEq

/-- The request data the DELETE handler reads. -/
structure DeleteRequest where
  token : Option String
  id : String
deriving Repr, DecidableEq

/-- The uniform response envelope: success with data, or failure with an HTTP
status and error string. -/
inductive ApiResult (α : Type) where
  | failure (status : Nat) (error : String)
  | success (data : α)
deriving Repr, DecidableEq

/-- The required-fields test of route.ts line 48. -/
def requiredPresent (r : PutRequest) : Bool :=
  truthy r.name && truthy r.address && truthy r.city &&
  truthy r.state && truthy r.contact && truthy r.email_id

/-- The row produced by the UPDATE statement (route.ts lines 96-99): the six
supplied columns are set, id, image and created_by are untouched. -/
def applyUpdate (r : PutRequest) (cn : Int) (s : School) : School :=
  { s with
    name := r.name.getD ""
    address := r.address.getD ""
    city := r.city.getD ""
    state := r.state.getD ""
    contact := cn
    email_id := r.email_id.getD "" }

/-- The UPDATE query of route.ts lines 96-99: its WHERE clause names only the
id, so it rewrites every row with that id whatever its current owner. -/
def putWrite (r : PutRequest) (cn : Int) (schoolId : Int) (db : Db) : Db :=
  let f := fun s => if (s.id : Int) == schoolId then applyUpdate r cn s else s
  { db with schools := db.schools.map f }

/-- The DELETE query of route.ts lines 239-242: WHERE names only the id. -/
def deleteWrite (schoolId : Int) (db : Db) : Db :=
  { db with schools := db.schools.filter (fun s => !((s.id : Int) == schoolId)) }

/-- The ownership probe both mutating handlers run first (route.ts lines 74-94
and 217-237): SELECT id, created_by WHERE id, then compare created_by with the
caller; none when no row exists, otherwise whether the caller owns the row. -/
def ownershipCheck (userId : Nat) (schoolId : Int) (db : Db) : Option Bool :=
  match db.schools.find? (fun s => (s.id : Int) == schoolId) with
  | none => none
  | some s => some (s.created_by == some userId)

/-- The PUT handler of route.ts lines 5-132: cookie check, token verification,
id parse, the three validation checks in source order, then the SELECT of the
row, the ownership comparison, and the UPDATE. -/
def putHandler (verify : TokenResolver) (r : PutRequest) (db : Db) :
    ApiResult School × Db :=
  match r.token with
  | none => (ApiResult.failure 401 "Authentication required", db)
  | some tok =>
    match verify tok with
    | none => (ApiResult.failure 401 "Invalid authentication token", db)
    | some userId =>
      match jsParseInt r.id with
      | none => (ApiResult.failure 400 "Invalid school ID", db)
      | some schoolId =>
        if requiredPresent r then
          if emailRegexTest (r.email_id.getD "") then
            match jsParseInt (r.contact.getD "") with
            | none => (ApiResult.failure 400 "Invalid contact number", db)
            | some cn =>
              if cn ≤ 0 then (ApiResult.failure 400 "Invalid contact number", db)
              else
                match db.schools.find? (fun s => (s.id : Int) == schoolId) with
                | none => (ApiResult.failure 404 "School not found", db)
                | some school =>
                  if school.created_by = some userId then
                    (ApiResult.success (applyUpdate r cn school), putWrite r cn schoolId db)
                  else
                    (ApiResult.failure 403 "You can only edit schools you created", db)
          else (ApiResult.failure 400 "Invalid email format", db)
        else (ApiResult.failure 400 "All fields are required", db)

/-- The LEFT JOIN of the GET query (route.ts lines 150-156): the owning user's
email, or null when created_by is null or no such user exists. -/
def joinedEmail (db : Db) (cb : Option Nat) : Option String :=
  cb.bind (fun uid => (db.users.find? (fun u => u.id == uid)).map User.email)

/-- The GET handler of route.ts lines 134-178: no cookie is ever read; id
parse, the joined SELECT, 404 on the empty result, else the first row. -/
def getHandler (idStr : String) (db : Db) : ApiResult (School × Option String) :=
  match jsParseInt idStr with
  | none => ApiResult.failure 400 "Invalid school ID"
  | some schoolId =>
    match db.schools.find? (fun s => (s.id : Int) == schoolId) with
    | none => ApiResult.failure 404 "School not found"
    | some s => ApiResult.success (s, joinedEmail db s.created_by)

/-- The DELETE handler of route.ts lines 180-274: cookie check, token
verification, id parse, the SELECT of the row, the ownership comparison, and
the DELETE. -/
def deleteHandler (verify : TokenResolver) (r : DeleteRequest) (db : Db) :
    ApiResult Unit × Db :=
  match r.token with
  | none => (ApiResult.failure 401 "Authentication required", db)
  | some tok =>
    match verify tok with
    | none => (ApiResult.failure 401 "Invalid authentication token", db)
    | some userId =>
      match jsParseInt r.id with
      | none => (ApiResult.failure 400 "Invalid school ID", db)
      | some schoolId =>
        match db.schools.find? (fun s => (s.id : Int) == schoolId) with
        | none => (ApiResult.failure 404 "School not found", db)
        | some school =>
          if school.created_by = some userId then
            (ApiResult.success (), deleteWrite schoolId db)
          else
            (ApiResult.failure 403 "You can only delete schools you created", db)

/-- Removal of a user under the declared schema (database.ts line 59): the
schools column created_by carries ON DELETE SET NULL, so deleting a user clears
the reference on their schools and deletes no school row. -/
def deleteUser (uid : Nat) (db : Db) : Db :=
  let f := fun s => if s.created_by = some uid then { s with created_by := none } else s
  { users := db.users.filter (fun u => u.id ≠ uid)
    schools := db.schools.map f }

/-- Modelled from the spec: createSchool(fields, ownerId) implements the POST
/api/schools route, which is not under src/. Per spec section 4.5 it validates
all required fields present, contact parsing as a positive integer, and the
email against the basic pattern, then inserts a row owned by ownerId. The
validation rules are those the PUT route applies to the same fields. -/
structure CreateRequest where
  name : Option String
  address : Option String
  city : Option String
  state : Option String
  contact : Option String
  email_id : Option String
deriving Repr, DecidableEq

/-- Modelled from the spec: the required-fields test of createSchool. -/
def createRequiredPresent (r : CreateRequest) : Bool :=
  truthy r.name && truthy r.address && truthy r.city &&
  truthy r.state && truthy r.contact && truthy r.email_id

/-- Modelled from the spec: createSchool validates, then inserts a row owned by
ownerId; newId stands for the value the SERIAL column assigns. -/
def createSchool (r : CreateRequest) (ownerId : Nat) (newId : Nat) (db : Db) :
    ApiResult School × Db :=
  if createRequiredPresent r then
    if emailRegexTest (r.email_id.getD "") then
      match jsParseInt (r.contact.getD "") with
      | none => (ApiResult.failure 400 "Invalid contact number", db)
      | some cn =>
        if cn ≤ 0 then (ApiResult.failure 400 "Invalid contact number", db)
        else
          let row : School :=
            { id := newId
              name := r.name.getD ""
              address := r.address.getD ""
              city := r.city.getD ""
              state := r.state.getD ""
              contact := cn
              image := none
              email_id := r.email_id.getD ""
              created_by := some ownerId }
          (ApiResult.success row, { db with schools := db.schools ++ [row] })
    else (ApiResult.failure 400 "Invalid email format", db)
  else (ApiResult.failure 400 "All fields are required", db)

/-- The schema objects initializeDatabase creates (database.ts lines 27-101). -/
structure SchemaState where
  appUsersTable : Bool
  otpTable : Bool
  schoolsTable : Bool
  updatedAtFn : Bool
  appUsersTrigger : Bool
  schoolsTrigger : Bool
deriving Repr, DecidableEq

/-- The module-level flags plus the schema (database.ts lines 15-16). -/
structure DbState where
  schema : SchemaState
  isInitialized : Bool
  isInitializing : Bool
deriving Repr, DecidableEq

/-- The six queries of database.ts lines 103-108 run in order: three CREATE
TABLE IF NOT EXISTS, one CREATE OR REPLACE FUNCTION, and two trigger creations
each guarded by an IF NOT EXISTS probe of pg_trigger. Each query succeeds on
any prior schema state. -/
def runCreateQueries (sc : SchemaState) : SchemaState :=
  let sc := if sc.appUsersTable then sc else { sc with appUsersTable := true }
  let sc := if sc.otpTable then sc else { sc with otpTable := true }
  let sc := if sc.schoolsTable then sc else { sc with schoolsTable := true }
  let sc := { sc with updatedAtFn := true }
  let sc := if sc.appUsersTrigger then sc else { sc with appUsersTrigger := true }
  if sc.schoolsTrigger then sc else { sc with schoolsTrigger := true }

/-- The initializeDatabase function of database.ts lines 18-119: an early
return when either flag is set, otherwise the create queries run, the
initialized flag is set and the initializing flag cleared. -/
def initDatabase (st : DbState) : DbState :=
  if st.isInitialized || st.isInitializing then st
  else
    { schema := runCreateQueries st.schema
      isInitialized := true
      isInitializing := false }

/-- A write to the created_by column of one school row, standing for any
interfering ownership change between a handler's SELECT and its UPDATE. -/
def setOwner (schoolId : Int) (o : Option Nat) (db : Db) : Db :=
  let f := fun s => if (s.id : Int) == schoolId then { s with created_by := o } else s
  { db with schools := db.schools.map f }

/-! Concrete fixtures used by witnesses and counterexamples. -/

def user1 : User := { id := 1, email := "a@x.com" }

def user2 : User := { id := 2, email := "b@x.com" }

def school1 : School :=
  { id := 1, name := "X", address := "1 Rd", city := "C", state := "S"
    contact := 5551234, image := none, email_id := "x@x.com", created_by := some 1 }

def db0 : Db := { users := [user1, user2], schools := [school1] }

/-- A concrete resolver: tokA is user 1's session, tokB user 2's, all else invalid. -/
def vt0 : TokenResolver :=
  fun t => if t = "tokA" then some 1 else if t = "tokB" then some 2 else none

def putReq1 : PutRequest :=
  { token := some "tokA", id := "1", name := some "Y", address := some "2 Rd"
    city := some "D", state := some "T", contact := some "777", email_id := some "y@y.com" }

def putReqNoTok : PutRequest := { putReq1 with token := none }

def putReqBadTok : PutRequest := { putReq1 with token := some "bad" }

def putReqOther : PutRequest := { putReq1 with token := some "tokB" }

def delReq1 : DeleteRequest := { token := some "tokA", id := "1" }

def delReqNoTok : DeleteRequest := { token := none, id := "1" }

def delReqBadTok : DeleteRequest := { token := some "bad", id := "1" }

def delReqOther : DeleteRequest := { token := some "tokB", id := "1" }

def dbNoRows : Db := { users := [user1, user2], schools := [] }

def school1Anon : School := { school1 with created_by := none }

def dbAnon : Db := { users := [user1, user2], schools := [school1Anon] }

def putReqBadId : PutRequest := { putReq1 with id := "abc" }

def delReqBadId : DeleteRequest := { delReq1 with id := "abc" }

def putReqBadContact : PutRequest := { putReq1 with contact := some "12abc" }

def putReqEmptyName : PutRequest := { putReq1 with name := some "" }

def createReqBad : CreateRequest :=
  { name := some "X", address := some "1 Rd", city := some "C"
    state := some "S", contact := some "0", email_id := some "x@x.com" }

/-- Rejection condition the handlers apply to the parsed contact value: the
parse failed, or it produced a non-positive number (route.ts lines 63-64). -/
def contactRejected : Option Int → Prop
  | none => True
  | some cn => cn ≤ 0

instance : (o : Option Int) → Decidable (contactRejected o)
  | none => Decidable.isTrue trivial
  | some cn => inferInstanceAs (Decidable (cn ≤ 0))

/-- A PUT body the validation of route.ts lines 48-69 rejects: a required field
missing or empty, a mismatching email, or a rejected parsed contact. -/
def putFieldsBad (r : PutRequest) : Prop :=
  requiredPresent r = false ∨ emailRegexTest (r.email_id.getD "") = false ∨
    contactRejected (jsParseInt (r.contact.getD ""))

/-- The same rejection condition over a createSchool body. -/
def createFieldsBad (r : CreateRequest) : Prop :=
  createRequiredPresent r = false ∨ emailRegexTest (r.email_id.getD "") = false ∨
    contactRejected (jsParseInt (r.contact.getD ""))

instance (r : PutRequest) : Decidable (putFieldsBad r) := by
  unfold putFieldsBad; infer_instance

instance (r : CreateRequest) : Decidable (createFieldsBad r) := by
  unfold createFieldsBad; infer_instance

/-- Claim C1: on PUT and DELETE for /schools/id, a request with no auth-token
cookie, or whose token fails verification, gets a 401 failure with the store
untouched; a verified caller whose userId differs from the row's created_by
gets a 403 failure with the store untouched (for PUT, once the request clears
id parsing and field validation, which precede the ownership check in source
order; for DELETE, once the id parses and the row exists). -/
theorem put_delete_auth_ownership_gate (verify : TokenResolver)
    (pr : PutRequest) (dr : DeleteRequest) (db : Db) :
    (pr.token = none →
      putHandler verify pr db = (ApiResult.failure 401 "Authentication required", db))
  ∧ (∀ t, pr.token = some t → verify t = none →
      putHandler verify pr db = (ApiResult.failure 401 "Invalid authentication token", db))
  ∧ (∀ t uid sid cn s, pr.token = some t → verify t = some uid →
      jsParseInt pr.id = some sid → requiredPresent pr = true →
      emailRegexTest (pr.email_id.getD "") = true →
      jsParseInt (pr.contact.getD "") = some cn → 0 < cn →
      db.schools.find? (fun x => (x.id : Int) == sid) = some s →
      s.created_by ≠ some uid →
      putHandler verify pr db =
        (ApiResult.failure 403 "You can only edit schools you created", db))
  ∧ (dr.token = none →
      deleteHandler verify dr db = (ApiResult.failure 401 "Authentication required", db))
  ∧ (∀ t, dr.token = some t → verify t = none →
      deleteHandler verify dr db = (ApiResult.failure 401 "Invalid authentication token", db))
  ∧ (∀ t uid sid s, dr.token = some t → verify t = some uid →
      jsParseInt dr.id = some sid →
      db.schools.find? (fun x => (x.id : Int) == sid) = some s →
      s.created_by ≠ some uid →
      deleteHandler verify dr db =
        (ApiResult.failure 403 "You can only delete schools you created", db)) := by
  refine ⟨fun h => by simp [putHandler, h],
          fun t ht hv => by simp [putHandler, ht, hv],
          ?_,
          fun h => by simp [deleteHandler, h],
          fun t ht hv => by simp [deleteHandler, ht, hv],
          ?_⟩
  · intro t uid sid cn s ht hv hid hreq hem hcn hpos hfind hown
    have hnle : ¬ cn ≤ 0 := by omega
    simp [putHandler, ht, hv, hid, hreq, hem, hcn, hnle, hfind, hown]
  · intro t uid sid s ht hv hid hfind hown
    simp [deleteHandler, ht, hv, hid, hfind, hown]

/-- Witness for Claim C1 at concrete requests against the fixture store. -/
theorem put_delete_auth_ownership_gate_witness :
    putHandler vt0 putReqNoTok db0 = (ApiResult.failure 401 "Authentication required", db0)
  ∧ putHandler vt0 putReqBadTok db0 =
      (ApiResult.failure 401 "Invalid authentication token", db0)
  ∧ putHandler vt0 putReqOther db0 =
      (ApiResult.failure 403 "You can only edit schools you created", db0)
  ∧ deleteHandler vt0 delReqNoTok db0 = (ApiResult.failure 401 "Authentication required", db0)
  ∧ deleteHandler vt0 delReqBadTok db0 =
      (ApiResult.failure 401 "Invalid authentication token", db0)
  ∧ deleteHandler vt0 delReqOther db0 =
      (ApiResult.failure 403 "You can only delete schools you created", db0) :=
  ⟨(put_delete_auth_ownership_gate vt0 putReqNoTok delReq1 db0).1 rfl,
   (put_delete_auth_ownership_gate vt0 putReqBadTok delReq1 db0).2.1 "bad" rfl (by decide),
   (put_delete_auth_ownership_gate vt0 putReqOther delReq1 db0).2.2.1 "tokB" 2 1 777 school1
     rfl (by decide) (by decide) (by decide) (by decide) (by decide) (by decide)
     (by decide) (by decide),
   (put_delete_auth_ownership_gate vt0 putReq1 delReqNoTok db0).2.2.2.1 rfl,
   (put_delete_auth_ownership_gate vt0 putReq1 delReqBadTok db0).2.2.2.2.1 "bad" rfl (by decide),
   (put_delete_auth_ownership_gate vt0 putReq1 delReqOther db0).2.2.2.2.2 "tokB" 2 1 school1
     rfl (by decide) (by decide) (by decide) (by decide)⟩

/-- Claim C2: an authenticated PUT with valid fields is 404 when no row has the
id, 403 when the verified caller is not the row's owner, and otherwise replaces
the supplied columns of the row (name, address, city, state, contact, email_id)
via the UPDATE whose WHERE names the id, returning the updated row. -/
theorem updateSchool_semantics (verify : TokenResolver) (pr : PutRequest) (db : Db)
    (t : String) (uid : Nat) (sid cn : Int)
    (htok : pr.token = some t) (hver : verify t = some uid)
    (hid : jsParseInt pr.id = some sid)
    (hreq : requiredPresent pr = true)
    (hem : emailRegexTest (pr.email_id.getD "") = true)
    (hcn : jsParseInt (pr.contact.getD "") = some cn) (hpos : 0 < cn) :
    (db.schools.find? (fun x => (x.id : Int) == sid) = none →
      putHandler verify pr db = (ApiResult.failure 404 "School not found", db))
  ∧ (∀ s, db.schools.find? (fun x => (x.id : Int) == sid) = some s →
      s.created_by ≠ some uid →
      putHandler verify pr db =
        (ApiResult.failure 403 "You can only edit schools you created", db))
  ∧ (∀ s, db.schools.find? (fun x => (x.id : Int) == sid) = some s →
      s.created_by = some uid →
      putHandler verify pr db =
        (ApiResult.success (applyUpdate pr cn s), putWrite pr cn sid db)) := by
  have hnle : ¬ cn ≤ 0 := by omega
  refine ⟨fun hfind => by simp [putHandler, htok, hver, hid, hreq, hem, hcn, hnle, hfind],
          fun s hfind hown => by
            simp [putHandler, htok, hver, hid, hreq, hem, hcn, hnle, hfind, hown],
          fun s hfind hown => by
            simp [putHandler, htok, hver, hid, hreq, hem, hcn, hnle, hfind, hown]⟩

/-- Witness for Claim C2: the 404, 403 and replace branches at concrete inputs. -/
theorem updateSchool_semantics_witness :
    putHandler vt0 putReq1 dbNoRows = (ApiResult.failure 404 "School not found", dbNoRows)
  ∧ putHandler vt0 putReqOther db0 =
      (ApiResult.failure 403 "You can only edit schools you created", db0)
  ∧ putHandler vt0 putReq1 db0 =
      (ApiResult.success (applyUpdate putReq1 777 school1), putWrite putReq1 777 1 db0) :=
  ⟨(updateSchool_semantics vt0 putReq1 dbNoRows "tokA" 1 1 777 rfl (by decide) (by decide)
      (by decide) (by decide) (by decide) (by decide)).1 (by decide),
   (updateSchool_semantics vt0 putReqOther db0 "tokB" 2 1 777 rfl (by decide) (by decide)
      (by decide) (by decide) (by decide) (by decide)).2.1 school1 (by decide) (by decide),
   (updateSchool_semantics vt0 putReq1 db0 "tokA" 1 1 777 rfl (by decide) (by decide)
      (by decide) (by decide) (by decide) (by decide)).2.2 school1 (by decide) (by decide)⟩

/-- Counterexample to Claim C3 as stated: the contact value 12abc is non-numeric,
yet validation accepts it, because parseInt takes the digit prefix 12; the PUT
succeeds and the store row is rewritten, so the operation neither fails with a
ValidationError nor leaves the store unchanged. -/
theorem contact_validation_counterexample :
    (putHandler vt0 putReqBadContact db0).1 =
      ApiResult.success (applyUpdate putReqBadContact 12 school1)
  ∧ (putHandler vt0 putReqBadContact db0).2 ≠ db0 := by decide

/-- Claim C3 (amended): for createSchool and authenticated updateSchool, an
input with a required field missing or empty, an email failing the pattern, or
a contact whose parseInt result is NaN or non-positive, fails with a 400
ValidationError, decided before any store access: the store is returned
unchanged and the response is the same whatever the store contents. (The
contact test is parseInt-based, so a non-numeric value with a positive integer
prefix, such as 12abc, passes validation.) -/
theorem validation_rejects_before_store (verify : TokenResolver)
    (pr : PutRequest) (cr : CreateRequest) (ownerId newId : Nat)
    (db db2 : Db) (t : String) (uid : Nat) (sid : Int)
    (htok : pr.token = some t) (hver : verify t = some uid)
    (hid : jsParseInt pr.id = some sid) :
    (putFieldsBad pr → ∃ e,
        putHandler verify pr db = (ApiResult.failure 400 e, db)
      ∧ putHandler verify pr db2 = (ApiResult.failure 400 e, db2))
  ∧ (createFieldsBad cr → ∃ e,
        createSchool cr ownerId newId db = (ApiResult.failure 400 e, db)
      ∧ createSchool cr ownerId newId db2 = (ApiResult.failure 400 e, db2)) := by
  constructor
  · intro hbad
    by_cases hr : requiredPresent pr = true
    · by_cases he : emailRegexTest (pr.email_id.getD "") = true
      · have hc : contactRejected (jsParseInt (pr.contact.getD "")) := by
          rcases hbad with h | h | h
          · rw [hr] at h; exact absurd h (by simp)
          · rw [he] at h; exact absurd h (by simp)
          · exact h
        refine ⟨"Invalid contact number", ?_, ?_⟩ <;>
        · cases hcn : jsParseInt (pr.contact.getD "") with
          | none => simp [putHandler, htok, hver, hid, hr, he, hcn]
          | some cn =>
            have hle : cn ≤ 0 := by rw [hcn] at hc; exact hc
            simp [putHandler, htok, hver, hid, hr, he, hcn, hle]
      · exact ⟨"Invalid email format", by simp [putHandler, htok, hver, hid, hr, he],
          by simp [putHandler, htok, hver, hid, hr, he]⟩
    · exact ⟨"All fields are required", by simp [putHandler, htok, hver, hid, hr],
        by simp [putHandler, htok, hver, hid, hr]⟩
  · intro hbad
    by_cases hr : createRequiredPresent cr = true
    · by_cases he : emailRegexTest (cr.email_id.getD "") = true
      · have hc : contactRejected (jsParseInt (cr.contact.getD "")) := by
          rcases hbad with h | h | h
          · rw [hr] at h; exact absurd h (by simp)
          · rw [he] at h; exact absurd h (by simp)
          · exact h
        refine ⟨"Invalid contact number", ?_, ?_⟩ <;>
        · cases hcn : jsParseInt (cr.contact.getD "") with
          | none => simp [createSchool, hr, he, hcn]
          | some cn =>
            have hle : cn ≤ 0 := by rw [hcn] at hc; exact hc
            simp [createSchool, hr, he, hcn, hle]
      · exact ⟨"Invalid email format", by simp [createSchool, hr, he],
          by simp [createSchool, hr, he]⟩
    · exact ⟨"All fields are required", by simp [createSchool, hr],
        by simp [createSchool, hr]⟩

/-- Witness for the amended Claim C3: an empty name on PUT and a zero contact
on create are both rejected with 400 against two different stores. -/
theorem validation_rejects_before_store_witness :
    (∃ e, putHandler vt0 putReqEmptyName db0 = (ApiResult.failure 400 e, db0)
        ∧ putHandler vt0 putReqEmptyName dbNoRows = (ApiResult.failure 400 e, dbNoRows))
  ∧ (∃ e, createSchool createReqBad 1 5 db0 = (ApiResult.failure 400 e, db0)
        ∧ createSchool createReqBad 1 5 dbNoRows = (ApiResult.failure 400 e, dbNoRows)) :=
  ⟨(validation_rejects_before_store vt0 putReqEmptyName createReqBad 1 5 db0 dbNoRows
      "tokA" 1 1 rfl (by decide) (by decide)).1 (by decide),
   (validation_rejects_before_store vt0 putReqEmptyName createReqBad 1 5 db0 dbNoRows
      "tokA" 1 1 rfl (by decide) (by decide)).2 (by decide)⟩

/-- Claim C4: the GET handler reads no cookie (authentication plays no part in
its embedding), answers 404 when no row carries the parsed id, and otherwise
returns the stored row together with the owning user's email via the LEFT JOIN. -/
theorem getSchool_semantics (idStr : String) (db : Db) (sid : Int)
    (hid : jsParseInt idStr = some sid) :
    (db.schools.find? (fun x => (x.id : Int) == sid) = none →
      getHandler idStr db = ApiResult.failure 404 "School not found")
  ∧ (∀ s, db.schools.find? (fun x => (x.id : Int) == sid) = some s →
      getHandler idStr db = ApiResult.success (s, joinedEmail db s.created_by)) :=
  ⟨fun hfind => by simp [getHandler, hid, hfind],
   fun s hfind => by simp [getHandler, hid, hfind]⟩

/-- Witness for Claim C4: a missing id yields 404, a present one the joined row. -/
theorem getSchool_semantics_witness :
    getHandler "1" dbNoRows = ApiResult.failure 404 "School not found"
  ∧ getHandler "1" db0 = ApiResult.success (school1, joinedEmail db0 school1.created_by) :=
  ⟨(getSchool_semantics "1" dbNoRows 1 (by decide)).1 (by decide),
   (getSchool_semantics "1" db0 1 (by decide)).2 school1 (by decide)⟩

/-- After the DELETE statement has run for an id, no row with that id remains
to be found. -/
theorem find?_deleteWrite (sid : Int) (db : Db) :
    (deleteWrite sid db).schools.find? (fun s => (s.id : Int) == sid) = none := by
  rw [List.find?_eq_none]
  intro s hs
  rw [deleteWrite] at hs
  simp only [List.mem_filter, Bool.not_eq_true'] at hs
  simp [hs.2]

/-- Claim C5: whenever a DELETE on /schools/id reports success, a GET on the
same id string against the resulting store answers 404: the row is removed
from the store, not hidden. -/
theorem delete_then_get_not_found (verify : TokenResolver) (dr : DeleteRequest) (db : Db)
    (hsucc : (deleteHandler verify dr db).1 = ApiResult.success ()) :
    getHandler dr.id ((deleteHandler verify dr db).2) =
      ApiResult.failure 404 "School not found" := by
  cases htok : dr.token with
  | none => rw [deleteHandler] at hsucc; simp [htok] at hsucc
  | some t =>
    cases hver : verify t with
    | none => rw [deleteHandler] at hsucc; simp [htok, hver] at hsucc
    | some uid =>
      cases hid : jsParseInt dr.id with
      | none => rw [deleteHandler] at hsucc; simp [htok, hver, hid] at hsucc
      | some sid =>
        cases hfind : db.schools.find? (fun s => (s.id : Int) == sid) with
        | none => rw [deleteHandler] at hsucc; simp [htok, hver, hid, hfind] at hsucc
        | some school =>
          by_cases hown : school.created_by = some uid
          · simp [deleteHandler, htok, hver, hid, hfind, hown, getHandler,
              find?_deleteWrite]
          · rw [deleteHandler] at hsucc; simp [htok, hver, hid, hfind, hown] at hsucc

/-- Witness for Claim C5: the owner deletes the fixture school and the re-fetch
fails with 404. -/
theorem delete_then_get_not_found_witness :
    getHandler delReq1.id ((deleteHandler vt0 delReq1 db0).2) =
      ApiResult.failure 404 "School not found" :=
  delete_then_get_not_found vt0 delReq1 db0 (by decide)

/-- Claim C6: removing a user deletes no school row (the row count is kept) and
each school survives, with created_by cleared to null exactly when that user
owned it, per the ON DELETE SET NULL clause of the schools table. -/
theorem user_removal_preserves_schools (uid : Nat) (db : Db) (s : School)
    (hs : s ∈ db.schools) :
    (deleteUser uid db).schools.length = db.schools.length
  ∧ (if s.created_by = some uid then { s with created_by := none } else s)
      ∈ (deleteUser uid db).schools := by
  constructor
  · simp [deleteUser]
  · exact List.mem_map_of_mem _ hs

/-- Witness for Claim C6: deleting user 1 keeps the fixture school, anonymized. -/
theorem user_removal_preserves_schools_witness :
    (deleteUser 1 db0).schools.length = db0.schools.length
  ∧ (if school1.created_by = some 1 then { school1 with created_by := none } else school1)
      ∈ (deleteUser 1 db0).schools :=
  user_removal_preserves_schools 1 db0 school1 (by decide)

/-- Claim C7: initializeDatabase is idempotent. Re-running it is a no-op thanks
to the isInitialized/isInitializing early return; even the create queries
themselves, re-run against any schema state, reproduce the state one run
produces (every statement is IF NOT EXISTS or CREATE OR REPLACE, so a re-run
against an initialized store raises no error); and a first run from a clean
flag state installs exactly the schema the queries build and sets the flag. -/
theorem initDatabase_idempotent (st : DbState) (sc : SchemaState) :
    initDatabase (initDatabase st) = initDatabase st
  ∧ runCreateQueries (runCreateQueries sc) = runCreateQueries sc
  ∧ (st.isInitialized = false → st.isInitializing = false →
      (initDatabase st).schema = runCreateQueries st.schema
      ∧ (initDatabase st).isInitialized = true) := by
  refine ⟨?_, ?_, fun h1 h2 => ⟨by simp [initDatabase, h1, h2], by simp [initDatabase, h1, h2]⟩⟩
  · by_cases h : (st.isInitialized || st.isInitializing) = true
    · simp [initDatabase, h]
    · simp [initDatabase, h]
  · obtain ⟨a, b, c, d, e, f⟩ := sc
    cases a <;> cases b <;> cases c <;> cases e <;> cases f <;> rfl

/-- Witness for Claim C7 at the empty schema and clean flags. -/
theorem initDatabase_idempotent_witness :
    initDatabase (initDatabase ⟨⟨false, false, false, false, false, false⟩, false, false⟩) =
      initDatabase ⟨⟨false, false, false, false, false, false⟩, false, false⟩
  ∧ runCreateQueries (runCreateQueries ⟨false, false, false, false, false, false⟩) =
      runCreateQueries ⟨false, false, false, false, false, false⟩
  ∧ (initDatabase ⟨⟨false, false, false, false, false, false⟩, false, false⟩).schema =
      runCreateQueries ⟨false, false, false, false, false, false⟩
  ∧ (initDatabase ⟨⟨false, false, false, false, false, false⟩, false, false⟩).isInitialized
      = true :=
  let h := initDatabase_idempotent ⟨⟨false, false, false, false, false, false⟩, false, false⟩
    ⟨false, false, false, false, false, false⟩
  ⟨h.1, h.2.1, (h.2.2 rfl rfl).1, (h.2.2 rfl rfl).2⟩

/-- Claim C8, divergence demonstration: the handlers run the ownership probe
and the write as two separate statements with no transaction, and the UPDATE's
WHERE clause names only the id. Concretely: caller 1 passes the ownership check
on the fixture store; an interleaved ownership change hands the row to user 2,
after which the same check answers false; yet the pending UPDATE still rewrites
the row, whose owner is then user 2, and does change its fields — a mutation
finishing on a row its caller no longer owns. -/
theorem ownership_check_write_race :
    ownershipCheck 1 1 db0 = some true
  ∧ ownershipCheck 1 1 (setOwner 1 (some 2) db0) = some false
  ∧ (putWrite putReq1 777 1 (setOwner 1 (some 2) db0)).schools =
      [{ applyUpdate putReq1 777 school1 with created_by := some 2 }]
  ∧ { applyUpdate putReq1 777 school1 with created_by := some 2 } ≠
      { school1 with created_by := some 2 } := by decide

/-- Claim C9: a school row whose created_by is null can be neither updated nor
deleted through the API: for every verified caller identity the comparison
against null fails, so both handlers answer 403 and return the store untouched. -/
theorem anonymous_school_immutable (verify : TokenResolver)
    (pr : PutRequest) (dr : DeleteRequest) (db : Db)
    (tp td : String) (up ud : Nat) (sp sd cn : Int) (s s2 : School)
    (hptok : pr.token = some tp) (hpver : verify tp = some up)
    (hpid : jsParseInt pr.id = some sp)
    (hreq : requiredPresent pr = true)
    (hem : emailRegexTest (pr.email_id.getD "") = true)
    (hcn : jsParseInt (pr.contact.getD "") = some cn) (hpos : 0 < cn)
    (hpf : db.schools.find? (fun x => (x.id : Int) == sp) = some s)
    (hanon : s.created_by = none)
    (hdtok : dr.token = some td) (hdver : verify td = some ud)
    (hdid : jsParseInt dr.id = some sd)
    (hdf : db.schools.find? (fun x => (x.id : Int) == sd) = some s2)
    (hanon2 : s2.created_by = none) :
    putHandler verify pr db =
      (ApiResult.failure 403 "You can only edit schools you created", db)
  ∧ deleteHandler verify dr db =
      (ApiResult.failure 403 "You can only delete schools you created", db) := by
  have hnle : ¬ cn ≤ 0 := by omega
  constructor
  · simp [putHandler, hptok, hpver, hpid, hreq, hem, hcn, hnle, hpf, hanon]
  · simp [deleteHandler, hdtok, hdver, hdid, hdf, hanon2]

/-- Witness for Claim C9: the anonymized fixture school rejects its former
owner's PUT and DELETE with 403. -/
theorem anonymous_school_immutable_witness :
    putHandler vt0 putReq1 dbAnon =
      (ApiResult.failure 403 "You can only edit schools you created", dbAnon)
  ∧ deleteHandler vt0 delReq1 dbAnon =
      (ApiResult.failure 403 "You can only delete schools you created", dbAnon) :=
  anonymous_school_immutable vt0 putReq1 delReq1 dbAnon "tokA" "tokA" 1 1 1 1 777
    school1Anon school1Anon rfl (by decide) (by decide) (by decide) (by decide)
    (by decide) (by decide) (by decide) (by decide) rfl (by decide) (by decide)
    (by decide) (by decide)

/-- Claim C10: an id segment parseInt cannot read yields the 400 Invalid school
ID failure on GET, and on PUT and DELETE once the auth gate (which precedes the
id parse) has admitted the caller; the store is returned untouched and the
response is the same whatever the store holds, the check preceding every query.
Conversely each handler consults only parseInt of the segment, so two segments
with the same parse — such as 123abc and its numeric prefix 123 — are
interchangeable. -/
theorem invalid_id_and_prefix_parse (verify : TokenResolver)
    (pr : PutRequest) (dr : DeleteRequest) (db : Db) (idS : String) :
    (jsParseInt idS = none → getHandler idS db = ApiResult.failure 400 "Invalid school ID")
  ∧ (∀ t uid, pr.token = some t → verify t = some uid → jsParseInt pr.id = none →
      putHandler verify pr db = (ApiResult.failure 400 "Invalid school ID", db))
  ∧ (∀ t uid, dr.token = some t → verify t = some uid → jsParseInt dr.id = none →
      deleteHandler verify dr db = (ApiResult.failure 400 "Invalid school ID", db))
  ∧ (∀ a b, jsParseInt a = jsParseInt b →
      getHandler a db = getHandler b db
      ∧ putHandler verify { pr with id := a } db = putHandler verify { pr with id := b } db
      ∧ deleteHandler verify { dr with id := a } db =
          deleteHandler verify { dr with id := b } db)
  ∧ jsParseInt "123abc" = some 123 := by
  refine ⟨fun h => by simp [getHandler, h],
          fun t uid ht hv h => by simp [putHandler, ht, hv, h],
          fun t uid ht hv h => by simp [deleteHandler, ht, hv, h],
          ?_, by decide⟩
  intro a b hab
  refine ⟨by simp [getHandler, hab], ?_, ?_⟩
  · cases htok : pr.token with
    | none => simp [putHandler, htok]
    | some t =>
      cases hv : verify t with
      | none => simp [putHandler, htok, hv]
      | some uid =>
        simp [putHandler, htok, hv, hab, requiredPresent, truthy, applyUpdate, putWrite]
  · cases htok : dr.token with
    | none => simp [deleteHandler, htok]
    | some t =>
      cases hv : verify t with
      | none => simp [deleteHandler, htok, hv]
      | some uid => simp [deleteHandler, htok, hv, hab]

/-- Witness for Claim C10: the segment abc is rejected with 400 by all three
handlers, and 123abc behaves as 123 on GET. -/
theorem invalid_id_and_prefix_parse_witness :
    getHandler "abc" db0 = ApiResult.failure 400 "Invalid school ID"
  ∧ putHandler vt0 putReqBadId db0 = (ApiResult.failure 400 "Invalid school ID", db0)
  ∧ deleteHandler vt0 delReqBadId db0 = (ApiResult.failure 400 "Invalid school ID", db0)
  ∧ getHandler "123abc" db0 = getHandler "123" db0
  ∧ jsParseInt "123abc" = some 123 :=
  let h := invalid_id_and_prefix_parse vt0 putReqBadId delReqBadId db0 "abc"
  ⟨h.1 (by decide), h.2.1 "tokA" 1 rfl (by decide) (by decide),
   h.2.2.1 "tokA" 1 rfl (by decide) (by decide),
   (h.2.2.2.1 "123abc" "123" (by decide)).1, h.2.2.2.2⟩

end SchoolApp
